import Mathlib

/-!
Verification of the k8s GPU node checker (`check-gpu-node.py`).

The file shallowly embeds the program's core logic in Lean:

* the node classifier (`is_ready`, `gpu_capacity`, `extract_node_info`),
* the cluster aggregator (`list_gpu_nodes`),
* the verdict resolver (exit-code computation at the end of `one_shot`),
* the Slack delivery engine (`send_slack_message`), with the HTTP layer
  abstracted as an oracle mapping each performed attempt index to its outcome.

Machine integers are modelled as `Int`/`Nat`; Python string-to-int parsing is
modelled by `pyParseInt`; Python `None` and falsy values are modelled with
`Option` and explicit emptiness checks.
-/

/-- Recognized GPU resource keys, in their fixed order (`GPU_RESOURCE_KEYS`). -/
def GPU_RESOURCE_KEYS : List String :=
  ["nvidia.com/gpu", "amd.com/gpu", "gpu.intel.com/i915", "intel.com/gpu"]

/-- One node condition (`V1NodeCondition`): its `type` and `status` strings. -/
structure NodeCondition where
  type_ : String
  status : String
deriving DecidableEq

/-- One taint record as extracted by `extract_node_info`. -/
structure Taint where
  key : String
  value : Option String
  effect : String
deriving DecidableEq

/-- Node metadata (`V1ObjectMeta`): the name and optional labels. -/
structure NodeMetadata where
  name : String
  labels : Option (List (String × String))
deriving DecidableEq

/-- Node spec (`V1NodeSpec`): the optional taints. -/
structure NodeSpec where
  taints : Option (List Taint)
deriving DecidableEq

/-- Node status (`V1NodeStatus`): optional condition list and optional
capacity mapping (modelled as an association list of string quantities,
as delivered by the Kubernetes client). -/
structure NodeStatus where
  conditions : Option (List NodeCondition)
  capacity : Option (List (String × String))
deriving DecidableEq

/-- A cluster node record (`V1Node`), with the fields the checker reads. -/
structure V1Node where
  metadata : Option NodeMetadata
  spec : Option NodeSpec
  status : Option NodeStatus
deriving DecidableEq

/-- Python whitespace test used by `int(...)` when stripping the ends of the
string (ASCII whitespace modelled). -/
def pyIsSpace (c : Char) : Bool := c.isWhitespace

/-- Accumulating digit scanner for `pyParseInt`: consumes decimal digits with
single underscores allowed between digits (Python underscore-literal rule);
any other character, a trailing underscore, or a doubled underscore fails. -/
def pyDigitsGo : Nat → List Char → Option Nat
  | acc, [] => some acc
  | acc, '_' :: c :: rest =>
    if c.isDigit then pyDigitsGo (acc * 10 + (c.toNat - 48)) rest else none
  | acc, c :: rest =>
    if c.isDigit then pyDigitsGo (acc * 10 + (c.toNat - 48)) rest else none

/-- Parses a nonempty digit run (the part after an optional sign). -/
def pyDigitsStart : List Char → Option Nat
  | [] => none
  | c :: rest => if c.isDigit then pyDigitsGo (c.toNat - 48) rest else none

/-- Model of Python `int(s)` on a string: strip surrounding whitespace, accept
an optional sign followed by decimal digits (with underscores between digits);
`none` models the `ValueError` swallowed by `gpu_capacity`. -/
def pyParseInt (s : String) : Option Int :=
  let cs := ((s.data.dropWhile pyIsSpace).reverse.dropWhile pyIsSpace).reverse
  match cs with
  | '+' :: rest => (pyDigitsStart rest).map Int.ofNat
  | '-' :: rest => (pyDigitsStart rest).map (fun n => -(n : Int))
  | rest => (pyDigitsStart rest).map Int.ofNat

/-- Embedding of `is_ready`: false when the status block or the condition list
is missing or empty; otherwise true iff some condition has `type == "Ready"`
and `status == "True"` (exact string comparison). -/
def is_ready (node : V1Node) : Bool :=
  match node.status with
  | none => false
  | some st =>
    match st.conditions with
    | none => false
    | some conds =>
      if conds.isEmpty then false
      else conds.any (fun c => c.type_ == "Ready" && c.status == "True")

/-- Embedding of `gpu_capacity`: for each recognized key present in the
capacity mapping with a truthy (nonempty) value that parses as an integer,
record the parsed value; parse failures are silently dropped. A missing
status block or a missing/empty capacity mapping yields the empty result. -/
def gpu_capacity (node : V1Node) : List (String × Int) :=
  match node.status with
  | none => []
  | some st =>
    match st.capacity with
    | none => []
    | some cap =>
      if cap.isEmpty then []
      else
        GPU_RESOURCE_KEYS.filterMap (fun key =>
          match cap.lookup key with
          | none => none
          | some v =>
            if v = "" then none
            else (pyParseInt v).map (fun n => (key, n)))

/-- The classified per-node record built by `extract_node_info`. -/
structure NodeInfo where
  name : String
  ready : Bool
  gpus : Int
  gpu_breakdown : List (String × Int)
  labels : List (String × String)
  taints : List Taint
deriving DecidableEq

/-- Embedding of `extract_node_info`: classify one node into a `NodeInfo`. -/
def extract_node_info (node : V1Node) : NodeInfo :=
  let caps := gpu_capacity node
  { name := match node.metadata with
            | some m => m.name
            | none => ""
    ready := is_ready node
    gpus := if caps.isEmpty then 0 else (caps.map Prod.snd).sum
    gpu_breakdown := caps
    labels := match node.metadata with
              | some m => m.labels.getD []
              | none => []
    taints := match node.spec with
              | some sp =>
                match sp.taints with
                | some ts => if ts.isEmpty then [] else ts
                | none => []
              | none => [] }

/-- The capacity mapping reachable from a node, when its status block and
capacity field are both present (used to state claims about `gpu_capacity`). -/
def nodeCapacity (node : V1Node) : Option (List (String × String)) :=
  match node.status with
  | none => none
  | some st => st.capacity

/-- Loop body of `list_gpu_nodes`, carrying the two accumulators exactly as
the Python loop appends to `gpu_nodes` and `ready_gpu_nodes`. -/
def lgnLoop : List V1Node → List NodeInfo → List NodeInfo →
    List NodeInfo × List NodeInfo
  | [], gpuAcc, readyAcc => (gpuAcc, readyAcc)
  | n :: rest, gpuAcc, readyAcc =>
    let info := extract_node_info n
    if 0 < info.gpus then
      if info.ready then lgnLoop rest (gpuAcc ++ [info]) (readyAcc ++ [info])
      else lgnLoop rest (gpuAcc ++ [info]) readyAcc
    else lgnLoop rest gpuAcc readyAcc

/-- Embedding of `list_gpu_nodes`: returns `(gpu_nodes, ready_gpu_nodes)`. -/
def list_gpu_nodes (nodes : List V1Node) : List NodeInfo × List NodeInfo :=
  lgnLoop nodes [] []

/-- Embedding of the exit-code computation at the end of `one_shot`
(its final three statements): 0 when a ready GPU node exists, 3 when GPU
nodes exist but none is ready, 2 otherwise. -/
def one_shot_exit (gpu_nodes ready_gpu_nodes : List NodeInfo) : Nat :=
  if ready_gpu_nodes ≠ [] then 0
  else if gpu_nodes ≠ [] ∧ ready_gpu_nodes = [] then 3
  else 2

/-- Outcome of one HTTP POST attempt inside `send_slack_message`: an HTTP
response with its status code and body text, a `ConnectionError`/`Timeout`
with its rendered message, another `RequestException`, or any other
exception. -/
inductive AttemptOutcome where
  | http (statusCode : Nat) (body : String)
  | connError (msg : String)
  | requestError (msg : String)
  | otherError (msg : String)
deriving DecidableEq

/-- Observable result of one `send_slack_message` call: the returned boolean,
the number of POST attempts performed, the number of `time.sleep` calls, and
the total seconds slept. -/
structure DeliveryTrace where
  success : Bool
  attempts : Nat
  sleeps : Nat
  sleptSeconds : Nat
deriving DecidableEq

/-- Test used by the except-handler of `send_slack_message`: the rendered
exception message contains "Connection reset by peer" or
"Connection aborted" as a substring. -/
def isRetryableConnMsg (msg : String) : Bool :=
  decide ("Connection reset by peer".data <:+: msg.data) ||
  decide ("Connection aborted".data <:+: msg.data)

/-- Embedding of the `for attempt in range(max_retries + 1)` loop of
`send_slack_message`. `attempt` is the current attempt index; `fuel` is the
number of loop iterations still available; `oracle i` is the outcome of the
POST performed on attempt `i`. Running out of fuel models falling through
the loop to the final `return False`.

* status 200: return `True` immediately;
* any other status: log only — the loop proceeds to the next attempt;
* `ConnectionError`/`Timeout` whose message is retryable: if `attempt <
  max_retries`, sleep `retry_delay` seconds and continue, else return
  `False`; a non-retryable message returns `False` immediately;
* any other exception: return `False` immediately. -/
def sendLoop (oracle : Nat → AttemptOutcome) (maxRetries : Int)
    (retryDelay : Nat) : Nat → Nat → DeliveryTrace
  | _, 0 => ⟨false, 0, 0, 0⟩
  | attempt, fuel + 1 =>
    match oracle attempt with
    | .http code _ =>
      if code = 200 then ⟨true, 1, 0, 0⟩
      else
        let t := sendLoop oracle maxRetries retryDelay (attempt + 1) fuel
        ⟨t.success, t.attempts + 1, t.sleeps, t.sleptSeconds⟩
    | .connError msg =>
      if isRetryableConnMsg msg then
        if (attempt : Int) < maxRetries then
          let t := sendLoop oracle maxRetries retryDelay (attempt + 1) fuel
          ⟨t.success, t.attempts + 1, t.sleeps + 1, t.sleptSeconds + retryDelay⟩
        else ⟨false, 1, 0, 0⟩
      else ⟨false, 1, 0, 0⟩
    | .requestError _ => ⟨false, 1, 0, 0⟩
    | .otherError _ => ⟨false, 1, 0, 0⟩

/-- Embedding of `send_slack_message`. A falsy webhook URL (`None` or the
empty string) returns `False` with no attempts; otherwise the attempt loop
runs over `range(max_retries + 1)`, which performs `max(max_retries + 1, 0)`
iterations at most. The message and username only populate the payload and
do not influence control flow. -/
def send_slack_message (webhook_url : Option String)
    (message username : String) (max_retries : Int) (retry_delay : Nat)
    (oracle : Nat → AttemptOutcome) : DeliveryTrace :=
  match webhook_url with
  | none => ⟨false, 0, 0, 0⟩
  | some u =>
    if u = "" then ⟨false, 0, 0, 0⟩
    else sendLoop oracle max_retries retry_delay 0 (max_retries + 1).toNat

/-- Does an attempt outcome carry HTTP status exactly 200? -/
def is200 : AttemptOutcome → Bool
  | .http code _ => code == 200
  | _ => false

/-- A node whose capacity reports the string "0" for the nvidia key. -/
def zeroCapNode : V1Node :=
  ⟨none, none, some ⟨none, some [("nvidia.com/gpu", "0")]⟩⟩

/-- A node with no metadata, spec or status at all. -/
def emptyNode : V1Node := ⟨none, none, none⟩

/-- Oracle in which every attempt receives an HTTP 500 response. -/
def all500Oracle : Nat → AttemptOutcome := fun _ => .http 500 "err"

/-- Oracle giving HTTP 500 on attempt 0 and HTTP 200 afterwards. -/
def http500Then200Oracle : Nat → AttemptOutcome := fun i =>
  if i = 0 then .http 500 "server error" else .http 200 "ok"

/-- Oracle giving connection-reset failures on attempts 0 and 1 and an
HTTP 200 response on attempt 2 (the Scenario D schedule). -/
def resetTwiceOracle : Nat → AttemptOutcome := fun i =>
  if i < 2 then .connError "Connection reset by peer" else .http 200 "ok"

/-- Oracle in which every attempt succeeds with HTTP 200. -/
def always200Oracle : Nat → AttemptOutcome := fun _ => .http 200 "ok"

/-! ## Helper lemmas about the aggregator -/

/-- The `list_gpu_nodes` loop, run from arbitrary accumulators, appends the
GPU-filtered classification of the remaining nodes to the accumulators. -/
theorem lgnLoop_spec (nodes : List V1Node) : ∀ gpuAcc readyAcc,
    lgnLoop nodes gpuAcc readyAcc =
      (gpuAcc ++ (nodes.map extract_node_info).filter
          (fun i => decide (0 < i.gpus)),
       readyAcc ++ ((nodes.map extract_node_info).filter
          (fun i => decide (0 < i.gpus))).filter (fun i => i.ready)) := by
  induction nodes with
  | nil => intro g r; simp [lgnLoop]
  | cons n rest ih =>
    intro g r
    by_cases hg : 0 < (extract_node_info n).gpus
    · by_cases hr : (extract_node_info n).ready
      · simp [lgnLoop, hg, hr, ih, List.filter_cons]
      · simp [lgnLoop, hg, hr, ih, List.filter_cons]
    · simp [lgnLoop, hg, ih, List.filter_cons]

/-- First component of `list_gpu_nodes`: the GPU nodes, in listing order. -/
theorem list_gpu_nodes_fst (nodes : List V1Node) :
    (list_gpu_nodes nodes).1 =
      (nodes.map extract_node_info).filter (fun i => decide (0 < i.gpus)) := by
  simp [list_gpu_nodes, lgnLoop_spec]

/-- Second component of `list_gpu_nodes`: the ready GPU nodes are the ready
subsequence of the GPU nodes. -/
theorem list_gpu_nodes_snd (nodes : List V1Node) :
    (list_gpu_nodes nodes).2 =
      (list_gpu_nodes nodes).1.filter (fun i => i.ready) := by
  simp [list_gpu_nodes, lgnLoop_spec]

/-! ## Claim theorems: classifier and aggregator -/

/-- C7: aggregation classifies every node in listing order; `gpu_nodes` is
exactly the order-preserving subsequence of classified nodes with a positive
GPU total, and `ready_gpu_nodes` is exactly the order-preserving subsequence
of `gpu_nodes` whose `ready` field is true. -/
theorem c7_aggregation_partitions (nodes : List V1Node) :
    (list_gpu_nodes nodes).1 =
      (nodes.map extract_node_info).filter (fun i => decide (0 < i.gpus)) ∧
    (list_gpu_nodes nodes).2 =
      (list_gpu_nodes nodes).1.filter (fun i => i.ready) :=
  ⟨list_gpu_nodes_fst nodes, list_gpu_nodes_snd nodes⟩

/-- C3: for every node list, the exit code computed at the end of `one_shot`
is 0 exactly when at least one ready GPU node exists, 3 exactly when GPU
nodes exist but none is ready, and 2 exactly when there is no GPU node; the
three cases are exhaustive (and mutually exclusive, the codes being
distinct). -/
theorem c3_verdict_pure_and_exclusive (nodes : List V1Node) :
    (one_shot_exit (list_gpu_nodes nodes).1 (list_gpu_nodes nodes).2 = 0 ↔
      1 ≤ (list_gpu_nodes nodes).2.length) ∧
    (one_shot_exit (list_gpu_nodes nodes).1 (list_gpu_nodes nodes).2 = 3 ↔
      1 ≤ (list_gpu_nodes nodes).1.length ∧
        (list_gpu_nodes nodes).2.length = 0) ∧
    (one_shot_exit (list_gpu_nodes nodes).1 (list_gpu_nodes nodes).2 = 2 ↔
      (list_gpu_nodes nodes).1.length = 0) := by
  have hsnd := list_gpu_nodes_snd nodes
  by_cases hr : (list_gpu_nodes nodes).2 = []
  · by_cases hg : (list_gpu_nodes nodes).1 = []
    · simp [one_shot_exit, hr, hg]
    · have hgl : 1 ≤ (list_gpu_nodes nodes).1.length :=
        List.length_pos.mpr hg
      simp [one_shot_exit, hr, hg, hgl]
  · have hg : (list_gpu_nodes nodes).1 ≠ [] := by
      intro h
      rw [hsnd, h] at hr
      simp at hr
    have hrl : 1 ≤ (list_gpu_nodes nodes).2.length :=
      List.length_pos.mpr hr
    have hgl : (list_gpu_nodes nodes).1.length ≠ 0 := by
      simpa [List.length_eq_zero] using hg
    simp [one_shot_exit, hr, hg, hrl]

/-- C5: the classifier's `ready` field is true exactly when the node's status
block is present, its condition list is present, and some condition in the
list has type "Ready" and status exactly "True"; in every other case it is
false. -/
theorem c5_ready_iff_ready_true_condition (node : V1Node) :
    is_ready node = true ↔
      ∃ st, node.status = some st ∧
        ∃ conds, st.conditions = some conds ∧
          ∃ c ∈ conds, c.type_ = "Ready" ∧ c.status = "True" := by
  unfold is_ready
  cases hst : node.status with
  | none => simp
  | some st =>
    dsimp only
    cases hc : st.conditions with
    | none => simp [hc]
    | some conds =>
      dsimp only
      by_cases he : conds = []
      · subst he
        simp [hc]
      · have he' : conds.isEmpty = false := by
          simpa [List.isEmpty_iff] using he
        simp [he', hc, List.any_eq_true]

/-- C2 counterexample: a capacity value of "0" for a recognized key is truthy
in Python, parses to 0, and is stored: the breakdown of `zeroCapNode`
contains the key with value 0, which the claim says never happens. -/
theorem c2_zero_entry_counterexample :
    ("nvidia.com/gpu", (0 : Int)) ∈
        (extract_node_info zeroCapNode).gpu_breakdown ∧
      (extract_node_info zeroCapNode).gpu_breakdown =
        [("nvidia.com/gpu", 0)] ∧
      (extract_node_info zeroCapNode).gpus = 0 := by decide

/-- C2 (amended): `gpus` always equals the sum of the breakdown values; every
breakdown entry is a recognized key whose capacity value is present, nonempty
and parses as an integer (so unparsable strings never appear, though a value
parsing to 0 does appear as a 0 entry); and a node with a missing or empty
capacity mapping has `gpus = 0`. -/
theorem c2_breakdown_invariants (node : V1Node) :
    (extract_node_info node).gpus =
      ((extract_node_info node).gpu_breakdown.map Prod.snd).sum ∧
    (∀ kv ∈ (extract_node_info node).gpu_breakdown,
      kv.1 ∈ GPU_RESOURCE_KEYS ∧
      ∃ cap, nodeCapacity node = some cap ∧
        ∃ s, cap.lookup kv.1 = some s ∧ s ≠ "" ∧ pyParseInt s = some kv.2) ∧
    ((nodeCapacity node = none ∨ nodeCapacity node = some []) →
      (extract_node_info node).gpus = 0) := by
  refine ⟨?_, ?_, ?_⟩
  · by_cases h : (gpu_capacity node).isEmpty
    · have hnil : gpu_capacity node = [] := by
        simpa [List.isEmpty_iff] using h
      simp [extract_node_info, hnil]
    · simp [extract_node_info, h]
  · intro kv hkv
    have hkv' : kv ∈ gpu_capacity node := hkv
    unfold gpu_capacity at hkv'
    cases hst : node.status with
    | none => rw [hst] at hkv'; simp at hkv'
    | some st =>
      rw [hst] at hkv'
      dsimp only at hkv'
      cases hcap : st.capacity with
      | none => rw [hcap] at hkv'; simp at hkv'
      | some cap =>
        rw [hcap] at hkv'
        dsimp only at hkv'
        by_cases he : cap.isEmpty
        · simp [he] at hkv'
        · simp only [he, if_false, Bool.false_eq_true] at hkv'
          obtain ⟨key, hkey, hf⟩ := List.mem_filterMap.mp hkv'
          cases hlook : cap.lookup key with
          | none => rw [hlook] at hf; simp at hf
          | some v =>
            rw [hlook] at hf
            dsimp only at hf
            by_cases hv : v = ""
            · simp [hv] at hf
            · rw [if_neg hv] at hf
              obtain ⟨n, hn, hkvEq⟩ := Option.map_eq_some'.mp hf
              refine ⟨?_, cap, ?_, v, ?_, hv, ?_⟩
              · rw [← hkvEq]; exact hkey
              · simp [nodeCapacity, hst, hcap]
              · rw [← hkvEq]; exact hlook
              · rw [← hkvEq]; exact hn
  · intro h
    have hnil : gpu_capacity node = [] := by
      unfold gpu_capacity
      rcases h with h | h <;>
        · unfold nodeCapacity at h
          cases hst : node.status with
          | none => rfl
          | some st =>
            rw [hst] at h
            dsimp only at h ⊢
            simp [h]
    simp [extract_node_info, hnil]

/-- Witness for the amended C2 theorem: a node with no status block is
classified with a total GPU count of 0. -/
theorem c2_breakdown_invariants_witness : (extract_node_info emptyNode).gpus = 0 :=
  (c2_breakdown_invariants emptyNode).2.2 (Or.inl rfl)

/-! ## Claim theorems: delivery engine -/

/-- C1 counterexample: with webhook set and the default max_retries, an HTTP
500 response on attempt 0 does not end delivery — a second attempt is made,
it receives HTTP 200, and `send_slack_message` returns True with two
attempts performed, contradicting "returns False immediately after that
attempt, performing no further attempts". -/
theorem c1_http500_counterexample :
    send_slack_message (some "https://hooks.example/a") "m" "u" 3 30
      http500Then200Oracle = ⟨true, 2, 0, 0⟩ := by decide

/-- C1 (amended): a non-200 HTTP response is only logged; the attempt loop
proceeds to the next attempt with no retry delay. When every attempt receives
a non-200 response, `send_slack_message` exhausts all max_retries + 1
attempts with zero sleeps and then returns False. -/
theorem c1_non200_continues_loop (u m usr : String) (mr : Int) (rd : Nat)
    (oracle : Nat → AttemptOutcome) (hu : u ≠ "")
    (h : ∀ i, ∃ c b, oracle i = .http c b ∧ c ≠ 200) :
    send_slack_message (some u) m usr mr rd oracle =
      ⟨false, (mr + 1).toNat, 0, 0⟩ := by
  have main : ∀ fuel attempt,
      sendLoop oracle mr rd attempt fuel = ⟨false, fuel, 0, 0⟩ := by
    intro fuel
    induction fuel with
    | zero => intro a; simp [sendLoop]
    | succ n ih =>
      intro a
      obtain ⟨c, b, ho, hc⟩ := h a
      simp [sendLoop, ho, hc, ih]
  simp [send_slack_message, hu, main]

/-- Witness for the amended C1 theorem: four HTTP 500 responses in a row
exhaust all four attempts of the default configuration with no sleeps. -/
theorem c1_non200_continues_loop_witness :
    send_slack_message (some "https://hooks.example/a") "m" "u" 3 30
      all500Oracle = ⟨false, 4, 0, 0⟩ :=
  c1_non200_continues_loop "https://hooks.example/a" "m" "u" 3 30 all500Oracle
    (by decide) (fun _ => ⟨500, "err", rfl, by decide⟩)

/-- C9: a falsy webhook endpoint (omitted, i.e. None, or the empty string)
makes `send_slack_message` an immediate no-op: it returns False with zero
attempts and zero delays. -/
theorem c9_empty_webhook_noop (w : Option String) (m usr : String) (mr : Int)
    (rd : Nat) (oracle : Nat → AttemptOutcome)
    (hw : w = none ∨ w = some "") :
    send_slack_message w m usr mr rd oracle = ⟨false, 0, 0, 0⟩ := by
  rcases hw with h | h <;> subst h <;> simp [send_slack_message]

/-- Witness for C9: the omitted endpoint case evaluated concretely. -/
theorem c9_empty_webhook_noop_witness :
    send_slack_message none "m" "u" 3 30 always200Oracle =
      ⟨false, 0, 0, 0⟩ :=
  c9_empty_webhook_noop none "m" "u" 3 30 always200Oracle (Or.inl rfl)

/-- C10: with a non-empty webhook URL and a negative max_retries, the loop
over range(max_retries + 1) is empty, so `send_slack_message` performs zero
attempts and zero delays and falls through to the final return False. -/
theorem c10_negative_retries_noop (u m usr : String) (mr : Int) (rd : Nat)
    (oracle : Nat → AttemptOutcome) (hu : u ≠ "") (hmr : mr < 0) :
    send_slack_message (some u) m usr mr rd oracle = ⟨false, 0, 0, 0⟩ := by
  have hz : (mr + 1).toNat = 0 := by omega
  simp [send_slack_message, hu, hz, sendLoop]

/-- Witness for C10: max_retries = -1 with an oracle that would succeed. -/
theorem c10_negative_retries_noop_witness :
    send_slack_message (some "https://hooks.example/h") "m" "u" (-1) 30
      always200Oracle = ⟨false, 0, 0, 0⟩ :=
  c10_negative_retries_noop "https://hooks.example/h" "m" "u" (-1) 30
    always200Oracle (by decide) (by decide)

/-- C4: the connection-failure policy of `send_slack_message`. A
ConnectionError/Timeout whose message lacks the reset/aborted substrings
returns False immediately even on attempt 0 with no sleep; a retryable
failure is retried only when attempts remain (none remain when max_retries
is 0); and under the Scenario D schedule — max_retries = 2, connection
resets on attempts 0 and 1, HTTP 200 on attempt 2 — delivery returns True
after exactly 2 sleeps of retry_delay seconds each. -/
theorem c4_conn_failure_policy (m usr u : String) (mr : Int) (rd : Nat)
    (oracle : Nat → AttemptOutcome) (msg body : String) (hu : u ≠ "") :
    (isRetryableConnMsg msg = false → oracle 0 = .connError msg → 0 ≤ mr →
      send_slack_message (some u) m usr mr rd oracle = ⟨false, 1, 0, 0⟩) ∧
    (isRetryableConnMsg msg = true → oracle 0 = .connError msg →
      send_slack_message (some u) m usr 0 rd oracle = ⟨false, 1, 0, 0⟩) ∧
    ((∀ i < 2, oracle i = .connError "Connection reset by peer") →
      oracle 2 = .http 200 body →
      send_slack_message (some u) m usr 2 rd oracle =
        ⟨true, 3, 2, 2 * rd⟩) := by
  refine ⟨?_, ?_, ?_⟩
  · intro hmsg ho hmr
    obtain ⟨k, hk⟩ : ∃ k, (mr + 1).toNat = k + 1 := ⟨mr.toNat, by omega⟩
    simp [send_slack_message, hu, hk, sendLoop, ho, hmsg]
  · intro hmsg ho
    have h1 : ((0 : Int) + 1).toNat = 1 := by decide
    simp [send_slack_message, hu, h1, sendLoop, ho, hmsg]
  · intro hre h200
    have h0 := hre 0 (by omega)
    have h1 := hre 1 (by omega)
    have hr : isRetryableConnMsg "Connection reset by peer" = true := by decide
    have h3 : ((2 : Int) + 1).toNat = 3 := by decide
    simp only [send_slack_message, hu, if_neg hu, h3]
    simp [sendLoop, h0, h1, h200, hr]
    omega

/-- Witness for C4: the Scenario D schedule with retry_delay = 1 returns
True after 3 attempts and 2 sleeps totalling 2 seconds. -/
theorem c4_conn_failure_policy_witness :
    send_slack_message (some "https://hooks.example/c") "m" "u" 2 1
      resetTwiceOracle = ⟨true, 3, 2, 2 * 1⟩ :=
  (c4_conn_failure_policy "m" "u" "https://hooks.example/c" 2 1
      resetTwiceOracle "x" "ok" (by decide)).2.2
    (fun i hi => by simp [resetTwiceOracle, hi])
    (by simp [resetTwiceOracle])

/-- Loop invariant for the retry bounds: whenever the remaining fuel does not
exceed the remaining attemptable range (as holds on entry with fuel
max_retries + 1 from attempt 0), the loop performs at most `fuel` attempts
and at most `fuel - 1` sleeps, and the slept time is the sleep count times
the retry delay. -/
theorem sendLoop_bounds (oracle : Nat → AttemptOutcome) (mr : Int)
    (rd : Nat) : ∀ (fuel attempt : Nat), mr + 1 ≤ (attempt : Int) + fuel →
    (sendLoop oracle mr rd attempt fuel).attempts ≤ fuel ∧
    (sendLoop oracle mr rd attempt fuel).sleeps ≤ fuel - 1 ∧
    (sendLoop oracle mr rd attempt fuel).sleptSeconds =
      (sendLoop oracle mr rd attempt fuel).sleeps * rd := by
  intro fuel
  induction fuel with
  | zero => intro a _; simp [sendLoop]
  | succ n ih =>
    intro a ha
    cases ho : oracle a with
    | http code body =>
      by_cases hc : code = 200
      · simp [sendLoop, ho, hc]
      · obtain ⟨hA, hS, hT⟩ := ih (a + 1) (by push_cast at ha ⊢; omega)
        have hstep : sendLoop oracle mr rd a (n + 1) =
            ⟨(sendLoop oracle mr rd (a + 1) n).success,
             (sendLoop oracle mr rd (a + 1) n).attempts + 1,
             (sendLoop oracle mr rd (a + 1) n).sleeps,
             (sendLoop oracle mr rd (a + 1) n).sleptSeconds⟩ := by
          simp [sendLoop, ho, hc]
        rw [hstep]
        dsimp only
        exact ⟨by omega, by omega, hT⟩
    | connError msg =>
      by_cases hrm : isRetryableConnMsg msg
      · by_cases hlt : (a : Int) < mr
        · have hn : 1 ≤ n := by push_cast at ha; omega
          obtain ⟨hA, hS, hT⟩ := ih (a + 1) (by push_cast at ha ⊢; omega)
          have hstep : sendLoop oracle mr rd a (n + 1) =
              ⟨(sendLoop oracle mr rd (a + 1) n).success,
               (sendLoop oracle mr rd (a + 1) n).attempts + 1,
               (sendLoop oracle mr rd (a + 1) n).sleeps + 1,
               (sendLoop oracle mr rd (a + 1) n).sleptSeconds + rd⟩ := by
            simp [sendLoop, ho, hrm, hlt]
          rw [hstep]
          dsimp only
          refine ⟨by omega, by omega, ?_⟩
          show (sendLoop oracle mr rd (a + 1) n).sleptSeconds + rd =
            ((sendLoop oracle mr rd (a + 1) n).sleeps + 1) * rd
          rw [hT, Nat.succ_mul]
        · simp [sendLoop, ho, hrm, hlt]
      · simp [sendLoop, ho, hrm]
    | requestError msg => simp [sendLoop, ho]
    | otherError msg => simp [sendLoop, ho]

/-- C6: `send_slack_message` is a total function of its inputs (the embedding
terminates by construction) making at most max_retries + 1 POST attempts and
at most max_retries sleeps of retry_delay seconds each, so the total added
blocking delay is at most max_retries * retry_delay seconds. -/
theorem c6_bounded_attempts_and_delay (w : Option String) (m usr : String)
    (mr : Int) (rd : Nat) (oracle : Nat → AttemptOutcome) (hmr : 0 ≤ mr) :
    (send_slack_message w m usr mr rd oracle).attempts ≤ mr.toNat + 1 ∧
    (send_slack_message w m usr mr rd oracle).sleeps ≤ mr.toNat ∧
    (send_slack_message w m usr mr rd oracle).sleptSeconds ≤
      mr.toNat * rd := by
  cases w with
  | none => simp [send_slack_message]
  | some u =>
    by_cases hu : u = ""
    · simp [send_slack_message, hu]
    · have hb := sendLoop_bounds oracle mr rd (mr + 1).toNat 0 (by omega)
      have h1 : (mr + 1).toNat = mr.toNat + 1 := by omega
      rw [h1] at hb
      simp only [send_slack_message, if_neg hu]
      rw [h1]
      refine ⟨hb.1, by omega, ?_⟩
      rw [hb.2.2]
      exact mul_le_mul_right' (by omega) rd

/-- Witness for C6: the default configuration (max_retries 3, retry_delay
30) against an always-500 webhook stays within 4 attempts, 3 sleeps, and 90
seconds of delay. -/
theorem c6_bounded_attempts_and_delay_witness :
    (send_slack_message (some "https://hooks.example/f") "m" "u" 3 30
        all500Oracle).attempts ≤ 4 ∧
    (send_slack_message (some "https://hooks.example/f") "m" "u" 3 30
        all500Oracle).sleeps ≤ 3 ∧
    (send_slack_message (some "https://hooks.example/f") "m" "u" 3 30
        all500Oracle).sleptSeconds ≤ 90 :=
  c6_bounded_attempts_and_delay (some "https://hooks.example/f") "m" "u" 3 30
    all500Oracle (by decide)

/-- The loop succeeds exactly when one of the attempts it actually performs
(consecutively numbered from `attempt`) receives an HTTP 200 response. -/
theorem sendLoop_success_iff (oracle : Nat → AttemptOutcome) (mr : Int)
    (rd : Nat) : ∀ (fuel attempt : Nat),
    ((sendLoop oracle mr rd attempt fuel).success = true ↔
      ∃ j, j < (sendLoop oracle mr rd attempt fuel).attempts ∧
        is200 (oracle (attempt + j)) = true) := by
  intro fuel
  induction fuel with
  | zero => intro a; simp [sendLoop]
  | succ n ih =>
    intro a
    cases ho : oracle a with
    | http code body =>
      by_cases hc : code = 200
      · have hstep : sendLoop oracle mr rd a (n + 1) = ⟨true, 1, 0, 0⟩ := by
          simp [sendLoop, ho, hc]
        rw [hstep]
        constructor
        · intro _
          exact ⟨0, Nat.zero_lt_one, by simp [ho, is200, hc]⟩
        · intro _
          rfl
      · have hstep : sendLoop oracle mr rd a (n + 1) =
            ⟨(sendLoop oracle mr rd (a + 1) n).success,
             (sendLoop oracle mr rd (a + 1) n).attempts + 1,
             (sendLoop oracle mr rd (a + 1) n).sleeps,
             (sendLoop oracle mr rd (a + 1) n).sleptSeconds⟩ := by
          simp [sendLoop, ho, hc]
        rw [hstep]
        dsimp only
        rw [ih (a + 1)]
        constructor
        · rintro ⟨j, hj, h2⟩
          refine ⟨j + 1, by omega, ?_⟩
          rwa [show a + 1 + j = a + (j + 1) by omega] at h2
        · rintro ⟨j, hj, h2⟩
          cases j with
          | zero =>
            rw [Nat.add_zero, ho] at h2
            simp [is200, hc] at h2
          | succ k =>
            refine ⟨k, by omega, ?_⟩
            rwa [show a + 1 + k = a + (k + 1) by omega]
    | connError msg =>
      by_cases hrm : isRetryableConnMsg msg
      · by_cases hlt : (a : Int) < mr
        · have hstep : sendLoop oracle mr rd a (n + 1) =
              ⟨(sendLoop oracle mr rd (a + 1) n).success,
               (sendLoop oracle mr rd (a + 1) n).attempts + 1,
               (sendLoop oracle mr rd (a + 1) n).sleeps + 1,
               (sendLoop oracle mr rd (a + 1) n).sleptSeconds + rd⟩ := by
            simp [sendLoop, ho, hrm, hlt]
          rw [hstep]
          dsimp only
          rw [ih (a + 1)]
          constructor
          · rintro ⟨j, hj, h2⟩
            refine ⟨j + 1, by omega, ?_⟩
            rwa [show a + 1 + j = a + (j + 1) by omega] at h2
          · rintro ⟨j, hj, h2⟩
            cases j with
            | zero =>
              rw [Nat.add_zero, ho] at h2
              simp [is200] at h2
            | succ k =>
              refine ⟨k, by omega, ?_⟩
              rwa [show a + 1 + k = a + (k + 1) by omega]
        · have hstep : sendLoop oracle mr rd a (n + 1) = ⟨false, 1, 0, 0⟩ := by
            simp [sendLoop, ho, hrm, hlt]
          rw [hstep]
          simp only [Bool.false_eq_true, false_iff]
          rintro ⟨j, hj, h2⟩
          have hj0 : j = 0 := by omega
          subst hj0
          rw [Nat.add_zero, ho] at h2
          simp [is200] at h2
      · have hstep : sendLoop oracle mr rd a (n + 1) = ⟨false, 1, 0, 0⟩ := by
          simp [sendLoop, ho, hrm]
        rw [hstep]
        simp only [Bool.false_eq_true, false_iff]
        rintro ⟨j, hj, h2⟩
        have hj0 : j = 0 := by omega
        subst hj0
        rw [Nat.add_zero, ho] at h2
        simp [is200] at h2
    | requestError msg =>
      have hstep : sendLoop oracle mr rd a (n + 1) = ⟨false, 1, 0, 0⟩ := by
        simp [sendLoop, ho]
      rw [hstep]
      simp only [Bool.false_eq_true, false_iff]
      rintro ⟨j, hj, h2⟩
      have hj0 : j = 0 := by omega
      subst hj0
      rw [Nat.add_zero, ho] at h2
      simp [is200] at h2
    | otherError msg =>
      have hstep : sendLoop oracle mr rd a (n + 1) = ⟨false, 1, 0, 0⟩ := by
        simp [sendLoop, ho]
      rw [hstep]
      simp only [Bool.false_eq_true, false_iff]
      rintro ⟨j, hj, h2⟩
      have hj0 : j = 0 := by omega
      subst hj0
      rw [Nat.add_zero, ho] at h2
      simp [is200] at h2

/-- Every attempt the loop performs before its last one receives something
other than an HTTP 200 response (the loop stops at the first 200). -/
theorem sendLoop_no200_except_last (oracle : Nat → AttemptOutcome) (mr : Int)
    (rd : Nat) : ∀ (fuel attempt j : Nat),
    j + 1 < (sendLoop oracle mr rd attempt fuel).attempts →
    is200 (oracle (attempt + j)) = false := by
  intro fuel
  induction fuel with
  | zero =>
    intro a j h
    simp [sendLoop] at h
  | succ n ih =>
    intro a j h
    cases ho : oracle a with
    | http code body =>
      by_cases hc : code = 200
      · have hstep : sendLoop oracle mr rd a (n + 1) = ⟨true, 1, 0, 0⟩ := by
          simp [sendLoop, ho, hc]
        rw [hstep] at h
        dsimp only at h
        exact absurd h (by omega)
      · have hstep : sendLoop oracle mr rd a (n + 1) =
            ⟨(sendLoop oracle mr rd (a + 1) n).success,
             (sendLoop oracle mr rd (a + 1) n).attempts + 1,
             (sendLoop oracle mr rd (a + 1) n).sleeps,
             (sendLoop oracle mr rd (a + 1) n).sleptSeconds⟩ := by
          simp [sendLoop, ho, hc]
        rw [hstep] at h
        dsimp only at h
        cases j with
        | zero =>
          rw [Nat.add_zero, ho]
          simp [is200, hc]
        | succ k =>
          rw [show a + (k + 1) = a + 1 + k by omega]
          exact ih (a + 1) k (by omega)
    | connError msg =>
      by_cases hrm : isRetryableConnMsg msg
      · by_cases hlt : (a : Int) < mr
        · have hstep : sendLoop oracle mr rd a (n + 1) =
              ⟨(sendLoop oracle mr rd (a + 1) n).success,
               (sendLoop oracle mr rd (a + 1) n).attempts + 1,
               (sendLoop oracle mr rd (a + 1) n).sleeps + 1,
               (sendLoop oracle mr rd (a + 1) n).sleptSeconds + rd⟩ := by
            simp [sendLoop, ho, hrm, hlt]
          rw [hstep] at h
          dsimp only at h
          cases j with
          | zero =>
            rw [Nat.add_zero, ho]
            simp [is200]
          | succ k =>
            rw [show a + (k + 1) = a + 1 + k by omega]
            exact ih (a + 1) k (by omega)
        · have hstep : sendLoop oracle mr rd a (n + 1) = ⟨false, 1, 0, 0⟩ := by
            simp [sendLoop, ho, hrm, hlt]
          rw [hstep] at h
          dsimp only at h
          exact absurd h (by omega)
      · have hstep : sendLoop oracle mr rd a (n + 1) = ⟨false, 1, 0, 0⟩ := by
          simp [sendLoop, ho, hrm]
        rw [hstep] at h
        dsimp only at h
        exact absurd h (by omega)
    | requestError msg =>
      have hstep : sendLoop oracle mr rd a (n + 1) = ⟨false, 1, 0, 0⟩ := by
        simp [sendLoop, ho]
      rw [hstep] at h
      dsimp only at h
      exact absurd h (by omega)
    | otherError msg =>
      have hstep : sendLoop oracle mr rd a (n + 1) = ⟨false, 1, 0, 0⟩ := by
        simp [sendLoop, ho]
      rw [hstep] at h
      dsimp only at h
      exact absurd h (by omega)

/-- C8: `send_slack_message` returns True exactly when one of the attempts
it performs receives an HTTP response with status code exactly 200, and the
first such response ends delivery — every performed attempt before the last
one is a non-200 outcome; every other outcome yields False. -/
theorem c8_success_iff_http200 (w : Option String) (m usr : String)
    (mr : Int) (rd : Nat) (oracle : Nat → AttemptOutcome) :
    ((send_slack_message w m usr mr rd oracle).success = true ↔
      ∃ j, j < (send_slack_message w m usr mr rd oracle).attempts ∧
        is200 (oracle j) = true) ∧
    (∀ j, j + 1 < (send_slack_message w m usr mr rd oracle).attempts →
      is200 (oracle j) = false) := by
  cases w with
  | none => simp [send_slack_message]
  | some u =>
    by_cases hu : u = ""
    · simp [send_slack_message, hu]
    · simp only [send_slack_message, if_neg hu]
      constructor
      · simpa using sendLoop_success_iff oracle mr rd (mr + 1).toNat 0
      · intro j hj
        simpa using sendLoop_no200_except_last oracle mr rd (mr + 1).toNat 0 j
          (by simpa using hj)

/-- Witness for C8: an immediate HTTP 200 yields a True return. -/
theorem c8_success_iff_http200_witness :
    (send_slack_message (some "https://hooks.example/g") "m" "u" 3 30
        always200Oracle).success = true :=
  (c8_success_iff_http200 (some "https://hooks.example/g") "m" "u" 3 30
      always200Oracle).1.mpr ⟨0, by decide, rfl⟩
